import Mathlib

/-!
Verification of the orientation-resolution and aerodynamic-coefficient subsystem of the
tudat repository against its natural-language specification.

The C++ sources are shallowly embedded: Eigen 3-vectors and 3x3 matrices become explicit
records over a commutative ring (instantiated at ℚ for concrete evaluation, exact inside ℝ),
`boost::multi_array` tables become shape-plus-row-major-data records, fallible functions
(`throw std::runtime_error`) return `Except String`, and the stateful
`AerodynamicAngleRotationalEphemeris` becomes explicit state passing.
-/

/-! ## Frame kinematics (Tudat/Astrodynamics/Ephemerides/rotationalEphemeris.cpp) -/

/-- Eigen::Vector3d embedded over a ring `K`. -/
structure Vec3 (K : Type) where
  x : K
  y : K
  z : K
deriving DecidableEq

/-- Eigen::Matrix3d embedded over a ring `K`; `mij` is the entry at row `i`, column `j`. -/
structure Mat3 (K : Type) where
  (m00 m01 m02 m10 m11 m12 m20 m21 m22 : K)
deriving DecidableEq

variable {K : Type} [CommRing K]

/-- Matrix product of two 3x3 matrices (Eigen `operator*`). -/
def matMul (A B : Mat3 K) : Mat3 K where
  m00 := A.m00 * B.m00 + A.m01 * B.m10 + A.m02 * B.m20
  m01 := A.m00 * B.m01 + A.m01 * B.m11 + A.m02 * B.m21
  m02 := A.m00 * B.m02 + A.m01 * B.m12 + A.m02 * B.m22
  m10 := A.m10 * B.m00 + A.m11 * B.m10 + A.m12 * B.m20
  m11 := A.m10 * B.m01 + A.m11 * B.m11 + A.m12 * B.m21
  m12 := A.m10 * B.m02 + A.m11 * B.m12 + A.m12 * B.m22
  m20 := A.m20 * B.m00 + A.m21 * B.m10 + A.m22 * B.m20
  m21 := A.m20 * B.m01 + A.m21 * B.m11 + A.m22 * B.m21
  m22 := A.m20 * B.m02 + A.m21 * B.m12 + A.m22 * B.m22

/-- Matrix-vector product (Eigen `Matrix3d * Vector3d`). -/
def matVec (A : Mat3 K) (v : Vec3 K) : Vec3 K where
  x := A.m00 * v.x + A.m01 * v.y + A.m02 * v.z
  y := A.m10 * v.x + A.m11 * v.y + A.m12 * v.z
  z := A.m20 * v.x + A.m21 * v.y + A.m22 * v.z

/-- Matrix transpose. -/
def transpose3 (A : Mat3 K) : Mat3 K where
  m00 := A.m00; m01 := A.m10; m02 := A.m20
  m10 := A.m01; m11 := A.m11; m12 := A.m21
  m20 := A.m02; m21 := A.m12; m22 := A.m22

/-- Determinant of a 3x3 matrix (cofactor expansion along the first row). -/
def det3 (A : Mat3 K) : K :=
  A.m00 * (A.m11 * A.m22 - A.m12 * A.m21)
    - A.m01 * (A.m10 * A.m22 - A.m12 * A.m20)
    + A.m02 * (A.m10 * A.m21 - A.m11 * A.m20)

/-- Vector negation (Eigen unary `operator-`). -/
def vecNeg (v : Vec3 K) : Vec3 K := ⟨-v.x, -v.y, -v.z⟩

/-- Identity 3x3 matrix. -/
def idMat3 : Mat3 K := ⟨1, 0, 0, 0, 1, 0, 0, 0, 1⟩

/-- Modelled from the spec: `linear_algebra::getCrossProductMatrix` (linearAlgebra.cpp is not
under src/; spec section 4.1 calls it `skew`).  The standard cross-product (skew-symmetric)
matrix of a vector: `skew(v) * w = v × w`. -/
def getCrossProductMatrix (v : Vec3 K) : Mat3 K :=
  ⟨0, -v.z, v.y,
   v.z, 0, -v.x,
   -v.y, v.x, 0⟩

/-- Embedding of `ephemerides::getRotationalVelocityVectorInBaseFrameFromMatrices`
(rotationalEphemeris.cpp lines 20-29): forms
`crossProductMatrix = rotationMatrixToGlobalFrameDerivative * rotationToTargetFrame` and
returns the entries `(2,1)`, `(0,2)`, `(1,0)`. -/
def getRotationalVelocityVectorInBaseFrameFromMatrices
    (rotationToTargetFrame rotationMatrixToGlobalFrameDerivative : Mat3 K) : Vec3 K :=
  let crossProductMatrix := matMul rotationMatrixToGlobalFrameDerivative rotationToTargetFrame
  ⟨crossProductMatrix.m21, crossProductMatrix.m02, crossProductMatrix.m10⟩

/-- Embedding of `ephemerides::getDerivativeOfRotationMatrixToFrame`
(rotationalEphemeris.cpp lines 32-39):
`getCrossProductMatrix( -rotationToTargetFrame * omega ) * rotationToTargetFrame`. -/
def getDerivativeOfRotationMatrixToFrame
    (rotationToTargetFrame : Mat3 K)
    (rotationalVelocityVectorOfTargetFrameInBaseFrame : Vec3 K) : Mat3 K :=
  matMul
    (getCrossProductMatrix
      (vecNeg (matVec rotationToTargetFrame rotationalVelocityVectorOfTargetFrameInBaseFrame)))
    rotationToTargetFrame

/-- Helper: for any matrix `R` with `det3 R = 1`, extracting the angular velocity from the
transpose of the derivative matrix produced by `getDerivativeOfRotationMatrixToFrame`
(the transpose being the derivative of the to-base rotation) recovers the angular velocity.
The underlying fact `transpose3 D * R = det3 R • skew(ω)` is a polynomial identity. -/
theorem velocity_from_transposed_derivative (R : Mat3 K) (ω : Vec3 K)
    (hdet : det3 R = 1) :
    getRotationalVelocityVectorInBaseFrameFromMatrices R
      (transpose3 (getDerivativeOfRotationMatrixToFrame R ω)) = ω := by
  obtain ⟨wx, wy, wz⟩ := ω
  obtain ⟨a, b, c, d, e, f, g, h, i⟩ := R
  simp only [det3] at hdet
  simp only [getRotationalVelocityVectorInBaseFrameFromMatrices,
    getDerivativeOfRotationMatrixToFrame, getCrossProductMatrix, matMul, matVec, vecNeg,
    transpose3, Vec3.mk.injEq]
  refine ⟨?_, ?_, ?_⟩
  · linear_combination wx * hdet
  · linear_combination wy * hdet
  · linear_combination wz * hdet

/-! ## AerodynamicAngleRotationalEphemeris
(src/include/tudat/astro/ephemerides/aeordynamicAngleRotationalEphemeris.h)

The class is stateful; it is embedded as explicit state passing.  The collaborator
`AerodynamicAngleCalculator` (not under src/) is abstracted as a function from the update
time to the body-to-inertial rotation it reports after `update` at that time, already
converted to a quaternion (`Eigen::Quaterniond( getRotationMatrixBetweenFrames( body_frame,
inertial_frame ) )`). -/

/-- Eigen::Quaterniond over exact rationals. -/
structure QuatQ where
  (w x y z : ℚ)
deriving DecidableEq

/-- Eigen `Quaterniond::inverse`: the conjugate divided by the squared norm. -/
def QuatQ.inverse (q : QuatQ) : QuatQ :=
  let n := q.w ^ 2 + q.x ^ 2 + q.y ^ 2 + q.z ^ 2
  ⟨q.w / n, -q.x / n, -q.y / n, -q.z / n⟩

/-- Embedding of a C++ `double` that may hold NaN: `none` stands for `TUDAT_NAN`. -/
abbrev EDouble := Option ℚ

/-- `Eigen::Matrix3d::Constant( TUDAT_NAN )`: the 3x3 matrix with every entry NaN. -/
def nanMatrix3 : Mat3 EDouble :=
  ⟨none, none, none, none, none, none, none, none, none⟩

/-- Mutable state of `AerodynamicAngleRotationalEphemeris` (header lines 122-130):
the registered angle function, the cached body angles, the cached time (`TUDAT_NAN`
initially, modelled as `none`), and the propagation flag.  `angleFunctionCallCount`
instruments how often the registered angle source has been invoked. -/
structure AeroEphState where
  aerodynamicAngleFunction : Option (ℚ → Vec3 ℚ)
  currentBodyAngles : Vec3 ℚ
  currentTime : Option ℚ
  isBodyInPropagation : Bool
  angleFunctionCallCount : Nat

/-- Modelled from the spec: `AerodynamicAngleRotationalEphemeris::update` — only its
declaration (header line 73) is under src/; the defining .cpp is missing.  Spec section 4.3:
`update(t)` is a no-op if `t` equals the cached time; otherwise it invokes the angle source
(when registered), caches the resulting body angles and sets the cached time to `t`.
The call counter records each invocation of the angle-source callable. -/
def AeroEphState.update (st : AeroEphState) (currentTime : ℚ) : AeroEphState :=
  if st.currentTime = some currentTime then st
  else
    match st.aerodynamicAngleFunction with
    | some f =>
        { st with
          currentTime := some currentTime
          currentBodyAngles := f currentTime
          angleFunctionCallCount := st.angleFunctionCallCount + 1 }
    | none => { st with currentTime := some currentTime }

/-- Embedding of `getRotationToBaseFrame` (header lines 46-52): calls `update( currentTime )`,
then returns the calculator's body-to-inertial rotation as a quaternion.  The calculator
(updated to `currentTime` by `update`) is abstracted as `calculatorRotation`. -/
def getRotationToBaseFrame (calculatorRotation : ℚ → QuatQ) (st : AeroEphState)
    (currentTime : ℚ) : AeroEphState × QuatQ :=
  (st.update currentTime, calculatorRotation currentTime)

/-- Embedding of `getRotationToTargetFrame` (header lines 54-58):
`return getRotationToBaseFrame( currentTime ).inverse( );`. -/
def getRotationToTargetFrame (calculatorRotation : ℚ → QuatQ) (st : AeroEphState)
    (currentTime : ℚ) : AeroEphState × QuatQ :=
  let p := getRotationToBaseFrame calculatorRotation st currentTime
  (p.1, p.2.inverse)

/-- Embedding of `getDerivativeOfRotationToBaseFrame` (header lines 60-64):
`return Eigen::Matrix3d::Constant( TUDAT_NAN );`.  The `Except` wrapper records that a C++
member function may throw; this body cannot, so the result is always `ok`. -/
def getDerivativeOfRotationToBaseFrame (st : AeroEphState) (currentTime : ℚ) :
    Except String (Mat3 EDouble) :=
  Except.ok nanMatrix3

/-- Embedding of `getDerivativeOfRotationToTargetFrame` (header lines 66-71):
`return Eigen::Matrix3d::Constant( TUDAT_NAN );`. -/
def getDerivativeOfRotationToTargetFrame (st : AeroEphState) (currentTime : ℚ) :
    Except String (Mat3 EDouble) :=
  Except.ok nanMatrix3

/-- Embedding of `addSideslipBankAngleFunctions` (header lines 93-111): when no angle
function is registered, the new function pairs angle of attack `0.0` with the supplied
sideslip-and-bank pair; otherwise it pairs the old function's angle-of-attack component
(index 0) with the supplied pair. -/
def addSideslipBankAngleFunctions (st : AeroEphState)
    (sideslipAndBankAngleFunction : ℚ → ℚ × ℚ) : AeroEphState :=
  match st.aerodynamicAngleFunction with
  | none =>
      { st with
        aerodynamicAngleFunction := some fun time =>
          ⟨0, (sideslipAndBankAngleFunction time).1, (sideslipAndBankAngleFunction time).2⟩ }
  | some oldAerodynamicAngleFunction =>
      { st with
        aerodynamicAngleFunction := some fun time =>
          ⟨(oldAerodynamicAngleFunction time).x,
           (sideslipAndBankAngleFunction time).1, (sideslipAndBankAngleFunction time).2⟩ }

/-- Example initial state: no angle function registered, zero angles, cached time
`TUDAT_NAN` (constructor, header lines 24-38). -/
def exampleEphState : AeroEphState :=
  { aerodynamicAngleFunction := none
    currentBodyAngles := ⟨0, 0, 0⟩
    currentTime := none
    isBodyInPropagation := false
    angleFunctionCallCount := 0 }

/-- Example state with a registered angle source (used to instantiate hypotheses). -/
def exampleAngleSourceState : AeroEphState :=
  { aerodynamicAngleFunction := some fun time => ⟨time, 0, 0⟩
    currentBodyAngles := ⟨0, 0, 0⟩
    currentTime := none
    isBodyInPropagation := false
    angleFunctionCallCount := 0 }

/-! ## Claims C1, C2, C6, C7, C10 -/

/-- C1 (amended): for every orthonormal rotation matrix `R` (with determinant 1) and every
angular velocity `ω`, applying `getDerivativeOfRotationMatrixToFrame` to `(R, ω)`, then
`getRotationalVelocityVectorInBaseFrameFromMatrices` to `R` and the TRANSPOSE of that
derivative (the transpose being the derivative of the to-base rotation, which that function
expects), then `getDerivativeOfRotationMatrixToFrame` again, reproduces the first
derivative matrix exactly.  Without the transpose the round trip negates the derivative
(see the counterexample). -/
theorem claim_C1_roundtrip {K : Type} [CommRing K] (R : Mat3 K) (ω : Vec3 K)
    (horthonormal : matMul (transpose3 R) R = idMat3) (hdet : det3 R = 1) :
    getRotationalVelocityVectorInBaseFrameFromMatrices R
        (transpose3 (getDerivativeOfRotationMatrixToFrame R ω)) = ω ∧
    getDerivativeOfRotationMatrixToFrame R
        (getRotationalVelocityVectorInBaseFrameFromMatrices R
          (transpose3 (getDerivativeOfRotationMatrixToFrame R ω))) =
      getDerivativeOfRotationMatrixToFrame R ω := by
  have h := velocity_from_transposed_derivative R ω hdet
  exact ⟨h, by rw [h]⟩

/-- C1 witness: the round trip of `claim_C1_roundtrip` evaluated at `R = I`, `ω = (1,2,3)`
over ℚ. -/
theorem claim_C1_roundtrip_witness :
    (matMul (transpose3 (idMat3 (K := ℚ))) idMat3 = idMat3 ∧
      det3 (idMat3 (K := ℚ)) = 1) ∧
    (getRotationalVelocityVectorInBaseFrameFromMatrices (idMat3 (K := ℚ))
        (transpose3 (getDerivativeOfRotationMatrixToFrame idMat3 ⟨1, 2, 3⟩)) = ⟨1, 2, 3⟩ ∧
      getDerivativeOfRotationMatrixToFrame (idMat3 (K := ℚ))
          (getRotationalVelocityVectorInBaseFrameFromMatrices idMat3
            (transpose3 (getDerivativeOfRotationMatrixToFrame idMat3 ⟨1, 2, 3⟩))) =
        getDerivativeOfRotationMatrixToFrame (idMat3 (K := ℚ)) ⟨1, 2, 3⟩) :=
  ⟨⟨by norm_num [matMul, transpose3, idMat3], by norm_num [det3, idMat3]⟩,
    claim_C1_roundtrip idMat3 ⟨1, 2, 3⟩ (by norm_num [matMul, transpose3, idMat3])
      (by norm_num [det3, idMat3])⟩

/-- C1 counterexample: the claim as stated — feeding the derivative matrix produced by
`getDerivativeOfRotationMatrixToFrame` directly (untransposed) into
`getRotationalVelocityVectorInBaseFrameFromMatrices` — fails already at the orthonormal
rotation `R = I`, `ω = (1,0,0)` over ℝ: the recomputed derivative is the NEGATIVE of the
original (entry (1,2) is `1` instead of `-1`; the discrepancy is 2, far above 1e-12). -/
theorem claim_C1_counterexample :
    getDerivativeOfRotationMatrixToFrame (idMat3 (K := ℝ))
        (getRotationalVelocityVectorInBaseFrameFromMatrices idMat3
          (getDerivativeOfRotationMatrixToFrame idMat3 ⟨1, 0, 0⟩)) ≠
      getDerivativeOfRotationMatrixToFrame (idMat3 (K := ℝ)) ⟨1, 0, 0⟩ := by
  intro hEq
  have h12 := congrArg Mat3.m12 hEq
  simp only [getDerivativeOfRotationMatrixToFrame,
    getRotationalVelocityVectorInBaseFrameFromMatrices, getCrossProductMatrix, matMul,
    matVec, vecNeg, idMat3] at h12
  norm_num at h12

/-- C2 (amended): for every state and every time, `getDerivativeOfRotationToBaseFrame` and
`getDerivativeOfRotationToTargetFrame` on the AerodynamicAngleRotationalEphemeris return the
constant-NaN 3x3 placeholder matrix normally (`Except.ok`); they never raise an error. -/
theorem claim_C2_derivative_placeholder (st : AeroEphState) (t : ℚ) :
    getDerivativeOfRotationToBaseFrame st t = Except.ok nanMatrix3 ∧
    getDerivativeOfRotationToTargetFrame st t = Except.ok nanMatrix3 :=
  ⟨rfl, rfl⟩

/-- C2 counterexample: at time 0 on a freshly constructed model, both derivative queries
succeed with the all-NaN placeholder matrix (`Except.ok`, not `Except.error`), contradicting
the claim that they fail with `UnsupportedOperation` and return no placeholder. -/
theorem claim_C2_counterexample :
    getDerivativeOfRotationToBaseFrame exampleEphState 0 = Except.ok nanMatrix3 ∧
    getDerivativeOfRotationToTargetFrame exampleEphState 0 = Except.ok nanMatrix3 :=
  ⟨rfl, rfl⟩

/-- C6: for every calculator, state and time, `getRotationToTargetFrame` returns exactly the
inverse of the quaternion returned by `getRotationToBaseFrame` at the same time, and leaves
the model in the same state (the source implements it as
`getRotationToBaseFrame( currentTime ).inverse( )`). -/
theorem claim_C6_inverse_identity (calculatorRotation : ℚ → QuatQ) (st : AeroEphState)
    (t : ℚ) :
    (getRotationToTargetFrame calculatorRotation st t).2 =
      ((getRotationToBaseFrame calculatorRotation st t).2).inverse ∧
    (getRotationToTargetFrame calculatorRotation st t).1 =
      (getRotationToBaseFrame calculatorRotation st t).1 :=
  ⟨rfl, rfl⟩

/-- C7: with an angle source registered and a fresh time `t` (different from the cached
time), a second `update t` immediately after a first one is a no-op — it leaves the state
unchanged — and the two consecutive calls invoke the angle-source callable exactly once. -/
theorem claim_C7_update_memoization (st : AeroEphState) (t : ℚ) (f : ℚ → Vec3 ℚ)
    (hf : st.aerodynamicAngleFunction = some f) (ht : st.currentTime ≠ some t) :
    (st.update t).update t = st.update t ∧
    ((st.update t).update t).angleFunctionCallCount = st.angleFunctionCallCount + 1 := by
  have hst : st.update t =
      { st with
        currentTime := some t
        currentBodyAngles := f t
        angleFunctionCallCount := st.angleFunctionCallCount + 1 } := by
    simp [AeroEphState.update, if_neg ht, hf]
  constructor
  · rw [hst]; simp [AeroEphState.update]
  · rw [hst]; simp [AeroEphState.update]

/-- C7 witness: two consecutive `update 2` calls on a state with a registered angle source
and no cached time coincide with one call and bump the invocation counter exactly once. -/
theorem claim_C7_update_memoization_witness :
    (exampleAngleSourceState.aerodynamicAngleFunction =
        some (fun time => ⟨time, 0, 0⟩) ∧
      exampleAngleSourceState.currentTime ≠ some 2) ∧
    ((exampleAngleSourceState.update 2).update 2 = exampleAngleSourceState.update 2 ∧
      ((exampleAngleSourceState.update 2).update 2).angleFunctionCallCount =
        exampleAngleSourceState.angleFunctionCallCount + 1) :=
  ⟨⟨rfl, by decide⟩,
    claim_C7_update_memoization exampleAngleSourceState 2 _ rfl (by decide)⟩

/-- C10: `addSideslipBankAngleFunctions g` registers a three-angle function that, at every
time `t`, returns angle of attack `0` together with `g t` when no angle function was
previously registered, and returns the old function's angle-of-attack component together
with `g t` when one was. -/
theorem claim_C10_addSideslipBank (st : AeroEphState) (g : ℚ → ℚ × ℚ) (t : ℚ) :
    (st.aerodynamicAngleFunction = none →
      ∃ F, (addSideslipBankAngleFunctions st g).aerodynamicAngleFunction = some F ∧
        F t = ⟨0, (g t).1, (g t).2⟩) ∧
    (∀ f, st.aerodynamicAngleFunction = some f →
      ∃ F, (addSideslipBankAngleFunctions st g).aerodynamicAngleFunction = some F ∧
        F t = ⟨(f t).x, (g t).1, (g t).2⟩) := by
  constructor
  · intro h
    simp only [addSideslipBankAngleFunctions, h]
    exact ⟨_, rfl, rfl⟩
  · intro f h
    simp only [addSideslipBankAngleFunctions, h]
    exact ⟨_, rfl, rfl⟩

/-- C10 witness: with the constant supplier `g = (7, 9)` at time 5, registration on a state
with no previous angle function yields `(0, 7, 9)`, and registration on a state whose
previous function has angle of attack `time` yields `(5, 7, 9)`. -/
theorem claim_C10_addSideslipBank_witness :
    (∃ F, (addSideslipBankAngleFunctions exampleEphState
        (fun _ => (7, 9))).aerodynamicAngleFunction = some F ∧ F 5 = ⟨0, 7, 9⟩) ∧
    (∃ F, (addSideslipBankAngleFunctions exampleAngleSourceState
        (fun _ => (7, 9))).aerodynamicAngleFunction = some F ∧ F 5 = ⟨5, 7, 9⟩) :=
  ⟨(claim_C10_addSideslipBank exampleEphState (fun _ => (7, 9)) 5).1 rfl,
    (claim_C10_addSideslipBank exampleAngleSourceState (fun _ => (7, 9)) 5).2 _ rfl⟩

/-! ## Aerodynamic coefficient tables (Tudat/InputOutput/aerodynamicCoefficientReader.h)

A `boost::multi_array< double, N >` is embedded as a shape vector together with its
row-major (C-order) storage, matching `data()` / `num_elements()` / `shape()`.  The flat
loop of `mergeNDimensionalCoefficients` recovers the multi-index of each storage position
with `getMultiArrayIndexArray` / `getIndex` (`offset / strides[d] % shape[d]` with row-major
strides `prod shape[d+1..]`), embedded as `unflattenIndex`. -/

/-- An N-dimensional `boost::multi_array< double, N >`: per-dimension sizes plus the
row-major flat storage. -/
structure NDTable where
  shape : List Nat
  data : List ℚ
deriving DecidableEq

/-- An N-dimensional `boost::multi_array< Eigen::Vector3d, N >`. -/
structure NDTableV3 where
  shape : List Nat
  data : List (Vec3 ℚ)
deriving DecidableEq

/-- Row-major flat offset of a multi-index: with shape `s :: ss`, index `i :: is` maps to
`i * prod ss + offset ss is` (stride of dimension `d` is the product of the later sizes). -/
def flattenIndex : List Nat → List Nat → Nat
  | s :: ss, i :: is =>
    have _ := s
    i * ss.prod + flattenIndex ss is
  | _, _ => 0

/-- Embedding of `getMultiArrayIndexArray` / `getIndex`: dimension `d` of the multi-index of
flat offset `k` is `k / strides[d] % shape[d]`, with row-major stride `prod shape[d+1..]`. -/
def unflattenIndex : List Nat → Nat → List Nat
  | [], _ => []
  | s :: ss, k => (k / ss.prod % s) :: unflattenIndex ss k

/-- A multi-index is valid for a shape when it has one entry per dimension, each below the
corresponding size. -/
def isValidIndex : List Nat → List Nat → Bool
  | [], [] => true
  | s :: ss, i :: is => decide (i < s) && isValidIndex ss is
  | _, _ => false

/-- Multi-index read access `m( index )` of a multi-array (row-major storage; out-of-range
reads, which boost leaves undefined, default to 0). -/
def NDTable.get (tbl : NDTable) (index : List Nat) : ℚ :=
  tbl.data.getD (flattenIndex tbl.shape index) 0

/-- Multi-index read access for a Vector3d multi-array. -/
def NDTableV3.get (tbl : NDTableV3) (index : List Nat) : Vec3 ℚ :=
  tbl.data.getD (flattenIndex tbl.shape index) ⟨0, 0, 0⟩

/-- Embedding of `input_output::mergeNDimensionalCoefficients` (aerodynamicCoefficientReader.h
lines 82-131): checks that the three shapes agree dimension by dimension (the template
parameter fixes a common rank, so the per-dimension loop amounts to list equality), then
fills a same-shape Vector3d array: storage position `i` receives the components of the three
inputs at the multi-index `getMultiArrayIndexArray` recovers for position `i`. -/
def mergeNDimensionalCoefficients (xComponents yComponents zComponents : NDTable) :
    Except String NDTableV3 :=
  if xComponents.shape = yComponents.shape ∧ xComponents.shape = zComponents.shape then
    Except.ok
      { shape := xComponents.shape
        data := (List.range xComponents.shape.prod).map fun i =>
          let index := unflattenIndex xComponents.shape i
          ⟨xComponents.get index, yComponents.get index, zComponents.get index⟩ }
  else
    Except.error "Error when creating N-D merged multi-array, input sizes are inconsistent"

/-- Modelled from the spec: `input_output::compareIndependentVariables` — only its
declaration and doc comment (aerodynamicCoefficientReader.h lines 133-141) are under src/.
Per that doc comment it is true exactly when the two lists of independent-variable lists
are completely equal in size and contents. -/
def compareIndependentVariables (list1 list2 : List (List ℚ)) : Bool :=
  decide (list1 = list2)

/-- The zero-filled multi-array of a given shape (`std::fill` with `0.0` over
`num_elements` entries). -/
def zeroTable (shape : List Nat) : NDTable :=
  { shape := shape, data := List.replicate shape.prod 0 }

/-- One step of the component-assembly loop of `readAerodynamicCoefficients` (lines
215-232): component `i` is the table read for key `i` when the map holds one
(`rawCoefficientArrays.count( i ) != 0`), and otherwise a zero-filled table shaped like the
first read table (`rawCoefficientArrays.begin( )`). -/
def readComponent (files : List (Nat × NDTable × List (List ℚ)))
    (firstShape : List Nat) (i : Nat) : NDTable :=
  match files.find? fun e => e.1 = i with
  | some e => e.2.1
  | none => zeroTable firstShape

/-- Embedding of `input_output::readAerodynamicCoefficients` on a file-name map
(aerodynamicCoefficientReader.h lines 171-239).  The external file reader
`MultiArrayFileReader::readMultiArrayAndIndependentVariables` is out of scope (spec section
6), so each map entry carries the table and breakpoint lists it would produce; the list
models the `std::map< int, std::string >` in its iteration order (ascending unique keys, so
the head is both the first file read and `rawCoefficientArrays.begin()`).  The breakpoints
of every later entry must match the first entry's (else the inconsistency error); an empty
map is an error; components 0..2 absent from the map are zero-filled to the shape of the
first table; the three component arrays are then merged. -/
def readAerodynamicCoefficients
    (files : List (Nat × NDTable × List (List ℚ))) :
    Except String (NDTableV3 × List (List ℚ)) :=
  match files with
  | [] => Except.error "Error when reading aerodynamic coefficients, no files read"
  | firstFile :: rest =>
    let independentVariables := firstFile.2.2
    if rest.all fun e => compareIndependentVariables independentVariables e.2.2 then
      let firstMultiArray := firstFile.2.1
      let files := firstFile :: rest
      match mergeNDimensionalCoefficients
          (readComponent files firstMultiArray.shape 0)
          (readComponent files firstMultiArray.shape 1)
          (readComponent files firstMultiArray.shape 2) with
      | Except.ok merged => Except.ok (merged, independentVariables)
      | Except.error e => Except.error e
    else
      Except.error
        "Error when reading 1-Dimensional aeroynamic coefficients, inconsistent aerodynamic coefficients"

/-! ### Row-major index arithmetic -/

/-- A valid multi-index flattens to an offset below `num_elements`. -/
theorem flattenIndex_lt_prod :
    ∀ shape index : List Nat, isValidIndex shape index = true →
      flattenIndex shape index < shape.prod := by
  intro shape
  induction shape with
  | nil =>
    intro index h
    cases index with
    | nil => simp [flattenIndex, isValidIndex]
    | cons i is => simp [isValidIndex] at h
  | cons s ss ih =>
    intro index h
    cases index with
    | nil => simp [isValidIndex] at h
    | cons i is =>
      simp only [isValidIndex, Bool.and_eq_true, decide_eq_true_eq] at h
      obtain ⟨hi, hrest⟩ := h
      have hf := ih is hrest
      simp only [flattenIndex, List.prod_cons]
      calc i * ss.prod + flattenIndex ss is < i * ss.prod + ss.prod := by omega
        _ = (i + 1) * ss.prod := by ring
        _ ≤ s * ss.prod := Nat.mul_le_mul_right _ (by omega)

/-- The multi-index of a flat offset only depends on the offset modulo `num_elements`. -/
theorem unflattenIndex_add_mul_prod :
    ∀ (shape : List Nat) (j k : Nat),
      unflattenIndex shape (j * shape.prod + k) = unflattenIndex shape k := by
  intro shape
  induction shape with
  | nil => intro j k; rfl
  | cons s ss ih =>
    intro j k
    simp only [unflattenIndex, List.prod_cons]
    rcases Nat.eq_zero_or_pos ss.prod with hP | hP
    · simp [hP]
    · have h1 : j * (s * ss.prod) + k = k + j * s * ss.prod := by ring
      rw [h1]
      congr 1
      · rw [Nat.add_mul_div_right _ _ hP, Nat.add_mul_mod_self_right]
      · have h2 : k + j * s * ss.prod = j * s * ss.prod + k := by ring
        rw [h2, ih (j * s) k]

/-- Round trip: flattening a valid multi-index and recovering it with
`getMultiArrayIndexArray` gives the index back. -/
theorem unflattenIndex_flattenIndex :
    ∀ shape index : List Nat, isValidIndex shape index = true →
      unflattenIndex shape (flattenIndex shape index) = index := by
  intro shape
  induction shape with
  | nil =>
    intro index h
    cases index with
    | nil => rfl
    | cons i is => simp [isValidIndex] at h
  | cons s ss ih =>
    intro index h
    cases index with
    | nil => simp [isValidIndex] at h
    | cons i is =>
      simp only [isValidIndex, Bool.and_eq_true, decide_eq_true_eq] at h
      obtain ⟨hi, hrest⟩ := h
      have hflt := flattenIndex_lt_prod ss is hrest
      simp only [flattenIndex, unflattenIndex]
      congr 1
      · rw [Nat.add_comm (i * ss.prod) (flattenIndex ss is),
          Nat.add_mul_div_right _ _ (Nat.lt_of_le_of_lt (Nat.zero_le _) hflt),
          Nat.div_eq_of_lt hflt]
        simpa using Nat.mod_eq_of_lt hi
      · rw [unflattenIndex_add_mul_prod ss i (flattenIndex ss is)]
        exact ih is hrest

/-- Reading position `i < n` of `(List.range n).map f` gives `f i`. -/
theorem rangeMap_getD {α : Type} (n i : Nat) (f : Nat → α) (d : α) (h : i < n) :
    ((List.range n).map f).getD i d = f i := by
  rw [List.getD_eq_getElem _ _ (by simpa using h)]
  simp

/-- Every read of a zero-filled list yields zero. -/
theorem replicate_zero_getD (n i : Nat) : (List.replicate n (0 : ℚ)).getD i 0 = 0 := by
  rcases Nat.lt_or_ge i n with h | h
  · rw [List.getD_eq_getElem _ _ (by simpa using h)]
    simp
  · exact List.getD_eq_default _ _ (by simpa using h)

/-- Every read of the zero table yields zero, at any index. -/
theorem zeroTable_get (shape : List Nat) (index : List Nat) :
    (zeroTable shape).get index = 0 :=
  replicate_zero_getD _ _

/-! ### Merge lemmas -/

/-- Shape agreement and the stored data of a successful merge. -/
theorem mergeNDimensionalCoefficients_ok
    {x y z : NDTable} {m : NDTableV3}
    (h : mergeNDimensionalCoefficients x y z = Except.ok m) :
    x.shape = y.shape ∧ x.shape = z.shape ∧ m.shape = x.shape ∧
      m.data = (List.range x.shape.prod).map fun i =>
        let index := unflattenIndex x.shape i
        ⟨x.get index, y.get index, z.get index⟩ := by
  by_cases hc : x.shape = y.shape ∧ x.shape = z.shape
  · refine ⟨hc.1, hc.2, ?_, ?_⟩ <;>
    · simp only [mergeNDimensionalCoefficients, if_pos hc, Except.ok.injEq] at h
      rw [← h]
  · simp [mergeNDimensionalCoefficients, if_neg hc] at h

/-- A successful merge holds, at every valid multi-index, the 3-vector of the three
component tables' entries at that index. -/
theorem mergeNDimensionalCoefficients_ok_get
    {x y z : NDTable} {m : NDTableV3}
    (h : mergeNDimensionalCoefficients x y z = Except.ok m)
    (index : List Nat) (hvalid : isValidIndex x.shape index = true) :
    m.get index = ⟨x.get index, y.get index, z.get index⟩ := by
  obtain ⟨_, _, hshape, hdata⟩ := mergeNDimensionalCoefficients_ok h
  have hlt := flattenIndex_lt_prod x.shape index hvalid
  rw [NDTableV3.get, hshape, hdata, rangeMap_getD _ _ _ _ hlt,
    unflattenIndex_flattenIndex x.shape index hvalid]

/-- Raw read of a merged table at an arbitrary (possibly invalid) multi-index: either the
offset is in range and the entry combines the three components at the recovered
multi-index, or the read returns the default zero vector. -/
theorem mergeNDimensionalCoefficients_ok_get_raw
    {x y z : NDTable} {m : NDTableV3}
    (h : mergeNDimensionalCoefficients x y z = Except.ok m) (index : List Nat) :
    (m.get index =
      ⟨x.get (unflattenIndex x.shape (flattenIndex x.shape index)),
       y.get (unflattenIndex x.shape (flattenIndex x.shape index)),
       z.get (unflattenIndex x.shape (flattenIndex x.shape index))⟩) ∨
    m.get index = ⟨0, 0, 0⟩ := by
  obtain ⟨_, _, hshape, hdata⟩ := mergeNDimensionalCoefficients_ok h
  rw [NDTableV3.get, hshape, hdata]
  rcases Nat.lt_or_ge (flattenIndex x.shape index) x.shape.prod with hlt | hge
  · left
    rw [rangeMap_getD _ _ _ _ hlt]
  · right
    rw [List.getD_eq_default _ _ (by simpa using hge)]

/-- Statement helper: component `i` of a 3-vector (`x` for 0, `y` for 1, `z` otherwise). -/
def Vec3.component (v : Vec3 ℚ) : Nat → ℚ
  | 0 => v.x
  | 1 => v.y
  | _ => v.z

/-- A successful `readAerodynamicCoefficients` comes from a successful merge of the three
assembled component tables. -/
theorem readAerodynamicCoefficients_ok_merge
    {firstFile : Nat × NDTable × List (List ℚ)}
    {rest : List (Nat × NDTable × List (List ℚ))}
    {merged : NDTableV3} {iv : List (List ℚ)}
    (hok : readAerodynamicCoefficients (firstFile :: rest) = Except.ok (merged, iv)) :
    mergeNDimensionalCoefficients
      (readComponent (firstFile :: rest) firstFile.2.1.shape 0)
      (readComponent (firstFile :: rest) firstFile.2.1.shape 1)
      (readComponent (firstFile :: rest) firstFile.2.1.shape 2) = Except.ok merged := by
  simp only [readAerodynamicCoefficients] at hok
  split at hok
  · split at hok
    next m hmerge =>
      simp only [Except.ok.injEq, Prod.mk.injEq] at hok
      rw [← hok.1]
      exact hmerge
    next e herror => simp at hok
  · simp at hok

/-! ## Claims C4, C5, C9 -/

/-- C4: for identically shaped scalar tables, `mergeNDimensionalCoefficients` returns a
same-shape table whose entry at every valid multi-index is the 3-vector of the three
inputs' entries there; any per-dimension size mismatch among the three inputs yields an
error instead of a table. -/
theorem claim_C4_merge (x y z : NDTable) :
    (x.shape = y.shape → x.shape = z.shape →
      ∃ m, mergeNDimensionalCoefficients x y z = Except.ok m ∧ m.shape = x.shape ∧
        ∀ index, isValidIndex x.shape index = true →
          m.get index = ⟨x.get index, y.get index, z.get index⟩) ∧
    (¬(x.shape = y.shape ∧ x.shape = z.shape) →
      ∃ e, mergeNDimensionalCoefficients x y z = Except.error e) := by
  constructor
  · intro h1 h2
    have hok : mergeNDimensionalCoefficients x y z = Except.ok
        { shape := x.shape
          data := (List.range x.shape.prod).map fun i =>
            let index := unflattenIndex x.shape i
            ⟨x.get index, y.get index, z.get index⟩ } := by
      unfold mergeNDimensionalCoefficients
      rw [if_pos ⟨h1, h2⟩]
    exact ⟨_, hok, (mergeNDimensionalCoefficients_ok hok).2.2.1,
      fun index hv => mergeNDimensionalCoefficients_ok_get hok index hv⟩
  · intro h
    refine ⟨"Error when creating N-D merged multi-array, input sizes are inconsistent", ?_⟩
    unfold mergeNDimensionalCoefficients
    rw [if_neg h]

/-- Example scalar tables of shape [2,2] and a shape-[3] table for the mismatch case. -/
def exampleTableX : NDTable := ⟨[2, 2], [1, 2, 3, 4]⟩

/-- Second example table of shape [2,2]. -/
def exampleTableY : NDTable := ⟨[2, 2], [5, 6, 7, 8]⟩

/-- Third example table of shape [2,2]. -/
def exampleTableZ : NDTable := ⟨[2, 2], [9, 10, 11, 12]⟩

/-- Example table of mismatching shape [3]. -/
def exampleTableShort : NDTable := ⟨[3], [1, 2, 3]⟩

/-- C4 witness: the merge of the three concrete [2,2] tables succeeds with entry-wise
3-vectors, and replacing the y table by a shape-[3] table yields the error. -/
theorem claim_C4_merge_witness :
    (∃ m, mergeNDimensionalCoefficients exampleTableX exampleTableY exampleTableZ =
        Except.ok m ∧ m.shape = exampleTableX.shape ∧
        ∀ index, isValidIndex exampleTableX.shape index = true →
          m.get index =
            ⟨exampleTableX.get index, exampleTableY.get index, exampleTableZ.get index⟩) ∧
    (∃ e, mergeNDimensionalCoefficients exampleTableX exampleTableShort exampleTableZ =
        Except.error e) :=
  ⟨(claim_C4_merge exampleTableX exampleTableY exampleTableZ).1 rfl rfl,
    (claim_C4_merge exampleTableX exampleTableShort exampleTableZ).2 (by decide)⟩

/-- C5: if any later-read axis table carries independent-variable (breakpoint) lists
different from the first-read table's, `readAerodynamicCoefficients` returns the
inconsistency error (and hence no merged table). -/
theorem claim_C5_inconsistent_breakpoints
    (firstFile : Nat × NDTable × List (List ℚ))
    (rest : List (Nat × NDTable × List (List ℚ)))
    (laterFile : Nat × NDTable × List (List ℚ)) (hmem : laterFile ∈ rest)
    (hne : compareIndependentVariables firstFile.2.2 laterFile.2.2 = false) :
    readAerodynamicCoefficients (firstFile :: rest) =
      Except.error
        "Error when reading 1-Dimensional aeroynamic coefficients, inconsistent aerodynamic coefficients" := by
  have hall : (rest.all fun e => compareIndependentVariables firstFile.2.2 e.2.2) = false := by
    rw [List.all_eq_false]
    exact ⟨laterFile, hmem, by simp [hne]⟩
  simp [readAerodynamicCoefficients, hall]

/-- Example file-map entry for axis 0 with breakpoints [[0]]. -/
def exampleFileEntry0 : Nat × NDTable × List (List ℚ) := (0, ⟨[1], [1]⟩, [[0]])

/-- Example file-map entry for axis 1 with conflicting breakpoints [[5]]. -/
def exampleFileEntry1 : Nat × NDTable × List (List ℚ) := (1, ⟨[1], [2]⟩, [[5]])

/-- C5 witness: two concrete one-point tables whose breakpoint lists differ make
`readAerodynamicCoefficients` fail with the inconsistency error. -/
theorem claim_C5_inconsistent_breakpoints_witness :
    readAerodynamicCoefficients [exampleFileEntry0, exampleFileEntry1] =
      Except.error
        "Error when reading 1-Dimensional aeroynamic coefficients, inconsistent aerodynamic coefficients" :=
  claim_C5_inconsistent_breakpoints exampleFileEntry0 [exampleFileEntry1] exampleFileEntry1
    (List.mem_singleton.mpr rfl) (by decide)

/-- C9: an empty file-name map makes `readAerodynamicCoefficients` fail, and on success
every axis in {0,1,2} with no entry in the map was zero-filled, so the corresponding
component of every entry of the merged table is zero. -/
theorem claim_C9_missing_axes_zero :
    readAerodynamicCoefficients [] =
      Except.error "Error when reading aerodynamic coefficients, no files read" ∧
    ∀ (files : List (Nat × NDTable × List (List ℚ))) (merged : NDTableV3)
      (iv : List (List ℚ)) (axis : Nat) (index : List Nat),
      readAerodynamicCoefficients files = Except.ok (merged, iv) → axis < 3 →
      (files.find? fun e => e.1 = axis) = none →
      (merged.get index).component axis = 0 := by
  constructor
  · rfl
  · intro files merged iv axis index hok h3 hfind
    match files with
    | [] => simp [readAerodynamicCoefficients] at hok
    | firstFile :: rest =>
      have hmerge := readAerodynamicCoefficients_ok_merge hok
      have hzero : readComponent (firstFile :: rest) firstFile.2.1.shape axis =
          zeroTable firstFile.2.1.shape := by
        simp [readComponent, hfind]
      interval_cases axis
      · rw [hzero] at hmerge
        rcases mergeNDimensionalCoefficients_ok_get_raw hmerge index with h | h <;>
          simp [h, Vec3.component, zeroTable_get]
      · rw [hzero] at hmerge
        rcases mergeNDimensionalCoefficients_ok_get_raw hmerge index with h | h <;>
          simp [h, Vec3.component, zeroTable_get]
      · rw [hzero] at hmerge
        rcases mergeNDimensionalCoefficients_ok_get_raw hmerge index with h | h <;>
          simp [h, Vec3.component, zeroTable_get]

/-- C9 witness: the empty map fails; a map providing only axis 0 (a one-point table with
value 1) succeeds, and components 1 and 2 of the merged entry are zero. -/
theorem claim_C9_missing_axes_zero_witness :
    readAerodynamicCoefficients [] =
      Except.error "Error when reading aerodynamic coefficients, no files read" ∧
    ∃ merged iv,
      readAerodynamicCoefficients [exampleFileEntry0] = Except.ok (merged, iv) ∧
      (merged.get [0]).component 1 = 0 ∧ (merged.get [0]).component 2 = 0 := by
  refine ⟨claim_C9_missing_axes_zero.1, ⟨[1], [⟨1, 0, 0⟩]⟩, [[0]], ?_, ?_, ?_⟩
  · rfl
  · exact claim_C9_missing_axes_zero.2 [exampleFileEntry0] _ _ 1 [0] rfl (by omega) (by decide)
  · exact claim_C9_missing_axes_zero.2 [exampleFileEntry0] _ _ 2 [0] rfl (by omega) (by decide)

/-! ## Coefficient-model factory
(Tudat/SimulationSetup/EnvironmentSetup/createFlightConditions.cpp)

Settings are embedded as a record carrying the stored type tag
(`getAerodynamicCoefficientType`), the declared independent-variable name list
(`getIndependentVariableNames`), the dynamic-type payload (which a
`dynamic_pointer_cast` inspects) and the named control-surface settings.  Reference
geometry (lengths, areas, moment reference point) is omitted: no claim concerns it. -/

/-- The settings type tags dispatched on by the factory (enum
`AerodynamicCoefficientTypes`; only the two tags handled in createFlightConditions.cpp
are modelled). -/
inductive AerodynamicCoefficientTypes
  | constant_aerodynamic_coefficients
  | tabulated_coefficients
deriving DecidableEq

/-- Dynamic-type payload of a settings object: a `ConstantAerodynamicCoefficientSettings`
carries the two constant coefficient vectors; a
`TabulatedAerodynamicCoefficientSettings< N >` carries its dimension `N` and (for the
univariate case used by the claims) the force- and moment-coefficient maps
(`getForceCoefficients` / `getMomentCoefficients`). -/
inductive SettingsPayload
  | constantPayload (constantForceCoefficient constantMomentCoefficient : Vec3 ℚ)
  | tabulatedPayload (dimension : Nat)
      (forceCoefficients momentCoefficients : List (ℚ × Vec3 ℚ))
deriving DecidableEq

/-- Control-surface increment settings: stored type tag plus declared independent-variable
names. -/
structure ControlSurfaceIncrementSettings where
  coefficientType : AerodynamicCoefficientTypes
  independentVariableNames : List Nat
deriving DecidableEq

/-- An `AerodynamicCoefficientSettings` descriptor. -/
structure AerodynamicCoefficientSettings where
  coefficientType : AerodynamicCoefficientTypes
  independentVariableNames : List Nat
  payload : SettingsPayload
  controlSurfaceSettings : List (String × ControlSurfaceIncrementSettings)

/-- A built coefficient interface: the two bound coefficient functions of
`CustomAerodynamicCoefficientInterface`, each taking the independent-variable values. -/
structure AerodynamicCoefficientInterfaceModel where
  forceCoefficientFunction : List ℚ → Vec3 ℚ
  momentCoefficientFunction : List ℚ → Vec3 ℚ

/-- A univariate interface as built by
`createUnivariateTabulatedCoefficientAerodynamicCoefficientInterface`: the bound
`Interpolator< double, Vector3d >::interpolate` calls take the single independent
variable. -/
structure UnivariateCoefficientInterfaceModel where
  forceCoefficientFunction : ℚ → Vec3 ℚ
  momentCoefficientFunction : ℚ → Vec3 ℚ

/-- Modelled from the spec: `interpolators::createOneDimensionalInterpolator` (the
interpolators library is not under src/, and spec section 6 keeps interpolation schemes
external).  Modelled as a breakpoint-table lookup: the value at the first breakpoint at or
above the query, else the last tabulated value; the exact scheme is immaterial to the
claims, which only compare WHICH table each interpolator was built from. -/
def createOneDimensionalInterpolator (dataMap : List (ℚ × Vec3 ℚ)) : ℚ → Vec3 ℚ :=
  fun v =>
    match dataMap.find? fun p => v ≤ p.1 with
    | some p => p.2
    | none =>
      match dataMap.getLast? with
      | some p => p.2
      | none => ⟨0, 0, 0⟩

/-- Embedding of `createUnivariateTabulatedCoefficientAerodynamicCoefficientInterface`
(createFlightConditions.cpp lines 222-263): a failed
`dynamic_pointer_cast< TabulatedAerodynamicCoefficientSettings< 1 > >` throws (with the
source's "size 1for body" message, missing space included); otherwise BOTH the force and
the moment interpolator are created from `getForceCoefficients( )` (lines 240-247). -/
def createUnivariateTabulatedCoefficientAerodynamicCoefficientInterface
    (coefficientSettings : AerodynamicCoefficientSettings) (body : String) :
    Except String UnivariateCoefficientInterfaceModel :=
  match coefficientSettings.payload with
  | SettingsPayload.tabulatedPayload dimension forceCoefficients _momentCoefficients =>
    if dimension = 1 then
      Except.ok
        { forceCoefficientFunction := createOneDimensionalInterpolator forceCoefficients
          momentCoefficientFunction := createOneDimensionalInterpolator forceCoefficients }
    else
      Except.error
        ("Error, expected tabulated aerodynamic coefficients of size 1for body " ++ body)
  | _ =>
    Except.error
      ("Error, expected tabulated aerodynamic coefficients of size 1for body " ++ body)

/-- Modelled from the spec:
`createTabulatedCoefficientAerodynamicCoefficientInterface< N >` for N = 2..6
(createFlightConditions.h, not under src/).  Per spec section 4.4 it checks the settings'
dynamic type against the requested dimensionality (else the type-mismatch error) and builds
an interpolator-backed interface from the tabulated payload. -/
def createTabulatedCoefficientAerodynamicCoefficientInterface (n : Nat)
    (coefficientSettings : AerodynamicCoefficientSettings) (body : String) :
    Except String AerodynamicCoefficientInterfaceModel :=
  match coefficientSettings.payload with
  | SettingsPayload.tabulatedPayload dimension forceCoefficients momentCoefficients =>
    if dimension = n then
      Except.ok
        { forceCoefficientFunction := fun vars =>
            createOneDimensionalInterpolator forceCoefficients (vars.headD 0)
          momentCoefficientFunction := fun vars =>
            createOneDimensionalInterpolator momentCoefficients (vars.headD 0) }
    else
      Except.error
        ("Error, expected tabulated aerodynamic coefficients of size " ++ toString n ++
          "for body " ++ body)
  | _ =>
    Except.error
      ("Error, expected tabulated aerodynamic coefficients of size " ++ toString n ++
        "for body " ++ body)

/-- Embedding of `createConstantCoefficientAerodynamicCoefficientInterface`
(createFlightConditions.cpp lines 197-220): a `CustomAerodynamicCoefficientInterface`
returning the two constants for every input. -/
def createConstantCoefficientAerodynamicCoefficientInterface
    (constantForceCoefficient constantMomentCoefficient : Vec3 ℚ) :
    AerodynamicCoefficientInterfaceModel :=
  { forceCoefficientFunction := fun _ => constantForceCoefficient
    momentCoefficientFunction := fun _ => constantMomentCoefficient }

/-- Embedding of `createControlSurfaceIncrementAerodynamicCoefficientInterface`
(createFlightConditions.cpp lines 265-331): tabulated settings dispatch on the declared
dimensionality 1..6 (other values: the "not yet implemented" error); non-tabulated tags are
not recognized.  The per-dimension builders
(`createTabulatedControlSurfaceIncrementAerodynamicCoefficientInterface< N >`, not under
src/) are modelled as succeeding; the built increment interface itself is not inspected by
any claim. -/
def createControlSurfaceIncrementAerodynamicCoefficientInterface
    (coefficientSettings : ControlSurfaceIncrementSettings) (body : String) :
    Except String Unit :=
  match coefficientSettings.coefficientType with
  | AerodynamicCoefficientTypes.tabulated_coefficients =>
    match coefficientSettings.independentVariableNames.length with
    | 1 | 2 | 3 | 4 | 5 | 6 => Except.ok ()
    | n =>
      Except.error
        ("Error when making tabulated control surface aerodynamic coefficient interface, "
          ++ toString n ++ " dimensions not yet implemented")
  | _ =>
    Except.error
      ("Error, do not recognize control surface aerodynamic coefficient settings for "
        ++ body)

/-- Embedding of `createAerodynamicCoefficientInterface`
(createFlightConditions.cpp lines 333-443): dispatch on the stored type tag; for tabulated
settings dispatch on the declared number of independent variables, cases 1 through 6
(case 1 via the univariate factory, whose single-variable functions are bound to the first
independent variable), any other count raising the "dimensions not yet implemented" error;
finally each named control-surface setting is built and attached (an error there aborts the
call). -/
def createAerodynamicCoefficientInterface
    (coefficientSettings : AerodynamicCoefficientSettings) (body : String) :
    Except String AerodynamicCoefficientInterfaceModel :=
  let base : Except String AerodynamicCoefficientInterfaceModel :=
    match coefficientSettings.coefficientType with
    | AerodynamicCoefficientTypes.constant_aerodynamic_coefficients =>
      match coefficientSettings.payload with
      | SettingsPayload.constantPayload constantForceCoefficient constantMomentCoefficient =>
        Except.ok
          (createConstantCoefficientAerodynamicCoefficientInterface
            constantForceCoefficient constantMomentCoefficient)
      | _ => Except.error ("Error, expected constant aerodynamic coefficients for body " ++ body)
    | AerodynamicCoefficientTypes.tabulated_coefficients =>
      match coefficientSettings.independentVariableNames.length with
      | 1 =>
        match createUnivariateTabulatedCoefficientAerodynamicCoefficientInterface
            coefficientSettings body with
        | Except.ok univariateInterface =>
          Except.ok
            { forceCoefficientFunction := fun vars =>
                univariateInterface.forceCoefficientFunction (vars.headD 0)
              momentCoefficientFunction := fun vars =>
                univariateInterface.momentCoefficientFunction (vars.headD 0) }
        | Except.error e => Except.error e
      | 2 => createTabulatedCoefficientAerodynamicCoefficientInterface 2 coefficientSettings body
      | 3 => createTabulatedCoefficientAerodynamicCoefficientInterface 3 coefficientSettings body
      | 4 => createTabulatedCoefficientAerodynamicCoefficientInterface 4 coefficientSettings body
      | 5 => createTabulatedCoefficientAerodynamicCoefficientInterface 5 coefficientSettings body
      | 6 => createTabulatedCoefficientAerodynamicCoefficientInterface 6 coefficientSettings body
      | n =>
        Except.error
          ("Error when making tabulated aerodynamic coefficient interface, " ++ toString n
            ++ " dimensions not yet implemented")
  match base with
  | Except.error e => Except.error e
  | Except.ok coefficientInterface =>
    match coefficientSettings.controlSurfaceSettings.mapM
        (fun p => createControlSurfaceIncrementAerodynamicCoefficientInterface p.2 body) with
    | Except.ok _ => Except.ok coefficientInterface
    | Except.error e => Except.error e

/-! ## Claims C3 and C8 -/

/-- C3: a tabulated settings descriptor whose payload and declared independent-variable
list agree on the dimensionality `n` builds successfully for every `1 ≤ n ≤ 6` and fails
with the unsupported-dimensionality error for every `n` outside that range (in particular
`n = 7`). -/
theorem claim_C3_dimensionality (s : AerodynamicCoefficientSettings) (body : String)
    (n : Nat) (forceCoefficients momentCoefficients : List (ℚ × Vec3 ℚ))
    (htype : s.coefficientType = AerodynamicCoefficientTypes.tabulated_coefficients)
    (hpayload : s.payload =
      SettingsPayload.tabulatedPayload n forceCoefficients momentCoefficients)
    (hlen : s.independentVariableNames.length = n)
    (hcs : s.controlSurfaceSettings = []) :
    (1 ≤ n ∧ n ≤ 6 →
      ∃ i, createAerodynamicCoefficientInterface s body = Except.ok i) ∧
    (¬(1 ≤ n ∧ n ≤ 6) →
      ∃ e, createAerodynamicCoefficientInterface s body = Except.error e) := by
  constructor
  · rintro ⟨h1, h6⟩
    interval_cases n <;>
      simp [createAerodynamicCoefficientInterface, htype, hlen, hcs, hpayload,
        createUnivariateTabulatedCoefficientAerodynamicCoefficientInterface,
        createTabulatedCoefficientAerodynamicCoefficientInterface, List.mapM.loop] <;>
      exact ⟨_, rfl⟩
  · intro hn
    rcases (by omega : n = 0 ∨ 7 ≤ n) with rfl | h7
    · simp [createAerodynamicCoefficientInterface, htype, hlen, hcs]
    · obtain ⟨m, rfl⟩ : ∃ m, n = m + 7 := ⟨n - 7, by omega⟩
      simp [createAerodynamicCoefficientInterface, htype, hlen, hcs]

/-- Example force-coefficient map for tabulated settings. -/
def exampleForceCoefficients : List (ℚ × Vec3 ℚ) := [(0, ⟨1, 2, 3⟩), (1, ⟨4, 5, 6⟩)]

/-- Example moment-coefficient map for tabulated settings. -/
def exampleMomentCoefficients : List (ℚ × Vec3 ℚ) := [(0, ⟨7, 8, 9⟩), (1, ⟨10, 11, 12⟩)]

/-- Example tabulated settings descriptor declaring `n` independent variables. -/
def exampleTabulatedSettings (n : Nat) : AerodynamicCoefficientSettings :=
  { coefficientType := AerodynamicCoefficientTypes.tabulated_coefficients
    independentVariableNames := List.range n
    payload := SettingsPayload.tabulatedPayload n
      exampleForceCoefficients exampleMomentCoefficients
    controlSurfaceSettings := [] }

/-- C3 witness: the concrete 3-variable tabulated descriptor builds; the 7-variable one
fails. -/
theorem claim_C3_dimensionality_witness :
    (∃ i, createAerodynamicCoefficientInterface (exampleTabulatedSettings 3) "Apollo" =
      Except.ok i) ∧
    (∃ e, createAerodynamicCoefficientInterface (exampleTabulatedSettings 7) "Apollo" =
      Except.error e) :=
  ⟨(claim_C3_dimensionality (exampleTabulatedSettings 3) "Apollo" 3 _ _ rfl rfl
      (by simp [exampleTabulatedSettings]) rfl).1 (by omega),
    (claim_C3_dimensionality (exampleTabulatedSettings 7) "Apollo" 7 _ _ rfl rfl
      (by simp [exampleTabulatedSettings]) rfl).2 (by omega)⟩

/-- C8: for a 1-dimensional tabulated settings object,
`createUnivariateTabulatedCoefficientAerodynamicCoefficientInterface` builds BOTH the
force-coefficient and the moment-coefficient interpolator from the force-coefficient
table, so the moment function returns exactly the force function's value at every
independent-variable value. -/
theorem claim_C8_moment_equals_force (s : AerodynamicCoefficientSettings) (body : String)
    (forceCoefficients momentCoefficients : List (ℚ × Vec3 ℚ))
    (hpayload : s.payload =
      SettingsPayload.tabulatedPayload 1 forceCoefficients momentCoefficients) :
    ∃ i, createUnivariateTabulatedCoefficientAerodynamicCoefficientInterface s body =
        Except.ok i ∧
      i.forceCoefficientFunction = createOneDimensionalInterpolator forceCoefficients ∧
      i.momentCoefficientFunction = createOneDimensionalInterpolator forceCoefficients ∧
      ∀ v, i.momentCoefficientFunction v = i.forceCoefficientFunction v := by
  simp only [createUnivariateTabulatedCoefficientAerodynamicCoefficientInterface, hpayload,
    if_pos rfl]
  exact ⟨_, rfl, rfl, rfl, fun v => rfl⟩

/-- C8 witness: on the concrete univariate settings, whose moment table differs from its
force table, the built interface still answers moment queries with the force
interpolation. -/
theorem claim_C8_moment_equals_force_witness :
    ∃ i, createUnivariateTabulatedCoefficientAerodynamicCoefficientInterface
        (exampleTabulatedSettings 1) "Apollo" = Except.ok i ∧
      i.forceCoefficientFunction = createOneDimensionalInterpolator exampleForceCoefficients ∧
      i.momentCoefficientFunction = createOneDimensionalInterpolator exampleForceCoefficients ∧
      ∀ v, i.momentCoefficientFunction v = i.forceCoefficientFunction v :=
  claim_C8_moment_equals_force (exampleTabulatedSettings 1) "Apollo" _ _ rfl
